import Mathlib

/-!
Verification development for the SubRedditAgent repository.

The Python modules `rag_handler.py` and `adk_chatbot.py` are shallowly
embedded below.  External library behaviour (the Chroma vector store, the
LangChain `ParentDocumentRetriever`, uuid generation, the Google ADK runner)
is represented by explicit parameters: an indexing run takes a `BackendBehavior`
describing whether/where the external calls raise, a uuid supply, and the
docstore-population function of `ParentDocumentRetriever.add_documents`;
a retrieval call takes the outcome of `retriever.invoke`; a chat turn takes
the outcome of `Runner.run_async`.  File-system state (the set of existing
chroma directories) and the module-level globals of `rag_handler.py` are
carried in an explicit `RagState`.  Logging callbacks and `print` calls have
no effect on any returned value and are omitted.
-/

namespace SubRedditAgent

/-! ### Configuration constants, from `config.py` -/

def APP_NAME : String := "RedditRAGChatbotApp"

def PARENT_CHUNK_SIZE : Nat := 2000

def PARENT_CHUNK_OVERLAP : Nat := 200

def CHILD_CHUNK_SIZE : Nat := 400

def CHILD_CHUNK_OVERLAP : Nat := 50

def EMBEDDING_MODEL : String := "models/text-embedding-004"

def ADK_AGENT_MODEL : String := "gemini-2.5-flash-preview-04-17"

def ADK_USER_ID : String := "flet_chat_user"

/-! ### Python string primitives -/

/-- The whitespace characters stripped by Python's `str.strip()` (ASCII part). -/
def isPySpace (c : Char) : Bool :=
  c == ' ' || c == '\t' || c == '\n' || c == '\r' || c == '\x0b' || c == '\x0c'

/-- Python's `s.strip()`: remove leading and trailing whitespace. -/
def pyStrip (s : String) : String :=
  ⟨((s.data.dropWhile isPySpace).reverse.dropWhile isPySpace).reverse⟩

/-- Python's `needle in hay` substring test on strings. -/
def pyIn (needle hay : String) : Bool :=
  decide (needle.data <:+: hay.data)

/-! ### Data model: scraped posts and LangChain documents -/

/-- One scraped post record, as produced by `reddit_utils.scrape_subreddit`
and consumed by `rag_handler.index_data_with_langchain` through `post.get`.
Each field is optional, mirroring dictionary lookups with defaults. -/
structure RawPost where
  id : Option String
  title : Option String
  body : Option String
  url : Option String
  score : Option Int
  num_comments : Option Nat
  created_utc : Option String
deriving DecidableEq

/-- Metadata attached to a LangChain `Document` (rag_handler.py lines 71-78).
Fields are optional because the metadata is a Python dict read back with
`.get(key, default)`. -/
structure DocMetadata where
  post_id : Option String
  url : Option String
  score : Option Int
  num_comments : Option Nat
  created_utc_iso : Option String
  source : Option String
deriving DecidableEq

/-- A LangChain `Document`. -/
structure Document where
  page_content : String
  metadata : DocMetadata
deriving DecidableEq

/-- The rendered content of one post, rag_handler.py line 68:
`f"Title: {post.get('title', '')}\nBody: {post.get('body', '')}".strip()`. -/
def postContent (post : RawPost) : String :=
  pyStrip ("Title: " ++ post.title.getD "" ++ "\nBody: " ++ post.body.getD "")

/-- The sentinel against which blank content is compared, rag_handler.py line 69. -/
def blankSentinel : String := "Title: \nBody:"

/-- The document built from a non-skipped post, rag_handler.py lines 71-79. -/
def mkDocument (i : Nat) (post : RawPost) (content : String) : Document :=
  { page_content := content
    metadata :=
      { post_id := some (post.id.getD ("post_" ++ toString i))
        url := some (post.url.getD "N/A")
        score := some (post.score.getD 0)
        num_comments := some (post.num_comments.getD 0)
        created_utc_iso := some (post.created_utc.getD "N/A")
        source := some ("reddit_scrape_" ++ post.id.getD ("post_" ++ toString i)) } }

/-- The document-conversion loop of rag_handler.py lines 66-79
(`for i, post in enumerate(scraped_data)`), with the skip guard of line 69. -/
def buildDocuments (i : Nat) (scraped_data : List RawPost) : List Document :=
  match scraped_data with
  | [] => []
  | post :: rest =>
    let content := postContent post
    if content == "" || content == blankSentinel then
      buildDocuments (i + 1) rest
    else
      mkDocument i post content :: buildDocuments (i + 1) rest

/-! ### LangChain component objects -/

/-- `GoogleGenerativeAIEmbeddings(model=cfg.EMBEDDING_MODEL)`. -/
structure Embeddings where
  model : String
deriving DecidableEq

/-- The `Chroma` vector store object of rag_handler.py lines 102-106. -/
structure VectorStore where
  collection_name : String
  embedding_function : Embeddings
  persist_directory : String
deriving DecidableEq

/-- The `InMemoryStore` parent docstore: identifiers mapped to parent documents. -/
abbrev ParentStore := List (String × Document)

/-- Splitter configuration of a `RecursiveCharacterTextSplitter`
(rag_handler.py lines 112-117). -/
structure SplitterCfg where
  chunk_size : Nat
  chunk_overlap : Nat
deriving DecidableEq

/-- The `ParentDocumentRetriever` object of rag_handler.py lines 122-127. -/
structure ParentDocumentRetriever where
  vectorstore : VectorStore
  docstore : ParentStore
  child_splitter : SplitterCfg
  parent_splitter : SplitterCfg
deriving DecidableEq

/-! ### The rag_handler module state -/

/-- The module-level globals of rag_handler.py (lines 27-32) together with the
model-level file-system state (`dirs`: the chroma directories existing on
disk) and the draw position of the uuid supply. -/
structure RagState where
  lc_vectorstore : Option VectorStore
  lc_parent_store : Option ParentStore
  lc_retriever : Option ParentDocumentRetriever
  lc_embeddings : Option Embeddings
  current_chroma_persist_dir : Option String
  dirs : List String
  uuidCounter : Nat
deriving DecidableEq

/-- Initial module state: every global starts as `None` (rag_handler.py lines 27-32),
no chroma directory exists, no uuid drawn yet. -/
def initialRagState : RagState :=
  { lc_vectorstore := none
    lc_parent_store := none
    lc_retriever := none
    lc_embeddings := none
    current_chroma_persist_dir := none
    dirs := []
    uuidCounter := 0 }

/-- Where, if anywhere, the external library calls of the indexing run raise:
embeddings construction (line 95), Chroma construction (line 102),
retriever construction (line 122) or `add_documents` (line 131). -/
inductive RaiseSite where
  | embedInit
  | chromaInit
  | retrieverInit
  | addDocuments
deriving DecidableEq

/-- Behaviour of the external backend during one indexing run. -/
inductive BackendBehavior where
  | ok
  | raises (site : RaiseSite) (msg : String)
deriving DecidableEq

/-- The unique directory name of one run, rag_handler.py line 57:
`os.path.join(os.path.dirname(__file__), f"chroma_db_{unique_id}")`
(the constant script-directory prefix is omitted). -/
def chromaDirName (u : String) : String := "chroma_db_" ++ u

/-- `rag_handler.index_data_with_langchain` (lines 34-170).

Parameters standing for external behaviour: `backend` describes whether the
library calls raise; `uuid4` is the uuid supply (`uuid.uuid4()` draws the
value at the state's counter, which is then advanced); `addDocs` is the
docstore contents produced by `ParentDocumentRetriever.add_documents`
(library-side splitting and id assignment).

Returns the Python return value (`True`/`False`) and the final module state. -/
def index_data_with_langchain (scraped_data : List RawPost) (backend : BackendBehavior)
    (uuid4 : Nat → String) (addDocs : List Document → ParentStore)
    (s : RagState) : Bool × RagState :=
  -- lines 43-46: reset previous Python object references
  let s0 : RagState :=
    { s with lc_vectorstore := none, lc_parent_store := none,
             lc_retriever := none, lc_embeddings := none }
  match scraped_data with
  | [] =>
    -- lines 50-52: `if not scraped_data: return False`
    (false, s0)
  | _ :: _ =>
    -- lines 56-60: draw a unique id, set the global path, create the directory
    let dir := chromaDirName (uuid4 s0.uuidCounter)
    let s1 : RagState :=
      { s0 with current_chroma_persist_dir := some dir,
                uuidCounter := s0.uuidCounter + 1,
                dirs := dir :: s0.dirs }
    -- lines 66-79: convert posts to documents
    let documents := buildDocuments 0 scraped_data
    if documents.isEmpty then
      -- lines 82-88: remove the fresh directory, reset the path, return False
      (false, { s1 with dirs := s1.dirs.filter (fun d => d != dir),
                        current_chroma_persist_dir := none })
    else
      match backend with
      | .raises site _msg =>
        -- lines 155-170: exception handler; remove the directory, reset globals
        (false, { s1 with dirs := s1.dirs.filter (fun d => d != dir),
                          lc_vectorstore := none, lc_parent_store := none,
                          lc_retriever := none,
                          lc_embeddings :=
                            if site = RaiseSite.embedInit then none
                            else some { model := EMBEDDING_MODEL },
                          current_chroma_persist_dir := none })
      | .ok =>
        -- lines 90-153: build the generation and return True
        let embeddings : Embeddings := { model := EMBEDDING_MODEL }
        let vectorstore : VectorStore :=
          { collection_name := "reddit_pdr_persistent_collection"
            embedding_function := embeddings
            persist_directory := dir }
        let parent_store : ParentStore := addDocs documents
        let retriever : ParentDocumentRetriever :=
          { vectorstore := vectorstore
            docstore := parent_store
            child_splitter :=
              { chunk_size := CHILD_CHUNK_SIZE, chunk_overlap := CHILD_CHUNK_OVERLAP }
            parent_splitter :=
              { chunk_size := PARENT_CHUNK_SIZE, chunk_overlap := PARENT_CHUNK_OVERLAP } }
        (true, { s1 with lc_embeddings := some embeddings,
                         lc_vectorstore := some vectorstore,
                         lc_parent_store := some parent_store,
                         lc_retriever := some retriever })

/-! ### The retrieval tool -/

/-- The dictionary returned by `retrieve_context_parent_retriever_tool`:
exactly the keys `status`, `message` and `context` in every branch. -/
structure RetrieveResult where
  status : String
  message : String
  context : String
deriving DecidableEq

/-- Outcome of `lc_retriever.invoke(query)` (rag_handler.py line 192):
either a list of parent documents, or an exception with message `msg`. -/
inductive InvokeOutcome where
  | docs (l : List Document)
  | raises (msg : String)
deriving DecidableEq

/-- `rag_handler.retrieve_context_parent_retriever_tool` (lines 173-218). -/
def retrieve_context_parent_retriever_tool (query : String) (s : RagState)
    (invoke : InvokeOutcome) : RetrieveResult :=
  match s.lc_retriever with
  | none =>
    -- lines 183-187
    { status := "error"
      message := "Retriever not ready (indexing likely failed or hasn't run)."
      context := "" }
  | some _ =>
    match invoke with
    | .raises e =>
      -- lines 211-218
      { status := "error"
        message := "An error occurred during retrieval: " ++ e
        context := "" }
    | .docs [] =>
      -- lines 194-196
      { status := "success", message := "No relevant context found.", context := "" }
    | .docs retrieved_docs =>
      -- lines 197-209
      let context_list := retrieved_docs.enum.map (fun p =>
        "--- Retrieved Context Chunk " ++ toString (p.1 + 1) ++ " ---\n" ++
        "Source Post ID: " ++ p.2.metadata.post_id.getD "N/A" ++ "\n" ++
        "Content: " ++ p.2.page_content)
      { status := "success"
        message := "Context retrieved."
        context := String.intercalate "\n\n" context_list }

/-! ### The ADK chat turn handler, from `adk_chatbot.py` -/

/-- A content part of an ADK event; `text` is `none` when the attribute is
absent or `None`. -/
structure Part where
  text : Option String
deriving DecidableEq

/-- The content of an ADK event; `role` is `none` when absent
(read back with `getattr(event.content, 'role', 'N/A')`). -/
structure Content where
  role : Option String
  parts : Option (List Part)
deriving DecidableEq

/-- One event of the ADK runner's stream; `content` is `none` when the event
has no (truthy) content. -/
structure Event where
  tool_call : Option String
  content : Option Content
deriving DecidableEq

/-- Outcome of iterating `adk_runner.run_async(...)`: either the full event
stream, or a `ValueError`, or another exception. -/
inductive RunnerOutcome where
  | events (l : List Event)
  | valueError (msg : String)
  | otherError (msg : String)
deriving DecidableEq

/-- The fixed agent instruction string of `adk_chatbot.initialize_adk_chatbot`
(adk_chatbot.py lines 45-54), transcribed byte-exactly. -/
def rag_agent_instruction : String :=
  "You are a helpful chatbot answering questions about specific Reddit posts. Your task is to answer user questions based *only* on the context provided by the \x27retrieve_context_parent_retriever_tool\x27 function. Follow these steps precisely:\n1.  When you receive a user query, analyze if you need external information from the Reddit posts. If yes, call the \x27retrieve_context_parent_retriever_tool\x27 function with the user query to find relevant information. If the question is conversational (e.g. \"hello\", \"how are you?\") or clearly follows up on previous context/answers, you might not need the tool. Use the tool if the user asks about specific topics, posts, or summaries related to the Reddit data.\n2.  Examine the result from the tool if called. The \x27context\x27 field contains relevant information chunks.\n3.  If the tool was called and returned context (status \x27success\x27, context not empty), synthesize an answer based *solely* on that retrieved context AND the conversation history. Start your response with: \"Based on the retrieved context: \".\n4.  If the tool was called and returned no relevant context, respond *exactly* with: \"I couldn\x27t find specific information about that in the indexed Reddit posts.\"\n5.  If the tool was not called (e.g., for a conversational query or direct follow-up), answer naturally based on the conversation history.\n6.  Do not use your general knowledge for questions that seem to ask about the Reddit data\n7. Use General Knowledge to answer questions that are not related to the Reddit data.\n\n"

/-- The inner part loop of `handle_adk_chat_turn` (adk_chatbot.py lines 125-127):
`if hasattr(part, 'text') and part.text and content_role == 'model':
final_response = part.text`. -/
def partStep (content_role : String) (final_response : String) (part : Part) : String :=
  match part.text with
  | some t => if t != "" && content_role == "model" then t else final_response
  | none => final_response

/-- Processing of one event of the stream (adk_chatbot.py lines 115-127). -/
def eventStep (final_response : String) (event : Event) : String :=
  match event.content with
  | none => final_response
  | some c =>
    let content_role := c.role.getD "N/A"
    match c.parts with
    | none => final_response
    | some parts => parts.foldl (partStep content_role) final_response

/-- `adk_chatbot.handle_adk_chat_turn` (lines 91-152), as a function of the
runner readiness, the arguments, and the outcome of `run_async`. -/
def handle_adk_chat_turn (runnerReady : Bool) (session_id user_query : String)
    (outcome : RunnerOutcome) : String :=
  if !runnerReady then "Error: Chatbot Runner not initialized."
  else
    match outcome with
    | .events l => l.foldl eventStep "Agent did not provide a response."
    | .valueError ve =>
      -- lines 129-143
      if pyIn "Session not found" ve then "Internal Error: Could not find chat session."
      else "A processing error occurred: " ++ ve
    | .otherError e =>
      -- lines 144-150
      "An error occurred: " ++ e

/-- Modelled from the spec: the ADK `Runner.run_async` call is external
library code (google.adk), not part of src/.  Per the spec, a session id that
was not registered in the runner's session service raises a `ValueError`
whose message contains "Session not found"; a registered session yields the
agent's event stream. -/
def run_async (sessionStore : List String) (session_id : String)
    (stream : List Event) : RunnerOutcome :=
  if session_id ∈ sessionStore then .events stream
  else .valueError ("Session not found: " ++ session_id)

/-! ### Spec-side description of the final-reply selection (claim C7) -/

/-- Last element of a list, or a default: used to phrase "the text of the
LAST event whose role is model". -/
def lastD (l : List String) (d : String) : String :=
  match l with
  | [] => d
  | a :: t => lastD t a

/-- The extractor applied to one part under a given content role. -/
def partText (content_role : String) (part : Part) : Option String :=
  match part.text with
  | some t => if t != "" && content_role == "model" then some t else none
  | none => none

/-- The non-empty texts of one event's model-role parts. -/
def eventTexts (event : Event) : List String :=
  match event.content with
  | none => []
  | some c =>
    match c.parts with
    | none => []
    | some parts => parts.filterMap (partText (c.role.getD "N/A"))

/-- All non-empty model-role texts of a stream, in order. -/
def modelTexts (l : List Event) : List String :=
  l.flatMap eventTexts

/-- Following the spec's words: the reply is the text of the last model-role
event (its last non-empty text part), or the fixed fallback string. -/
def lastModelReply (l : List Event) : String :=
  lastD (modelTexts l) "Agent did not provide a response."

/-! ### Sample data used by concrete witnesses -/

/-- A scraped post with non-blank title and body. -/
def samplePost : RawPost :=
  { id := some "p1", title := some "Hello", body := some "World", url := some "u"
    score := some 10, num_comments := some 2, created_utc := some "2024-01-01T00:00:00" }

/-- A sample docstore-population function for `add_documents`: key each parent
document by its post id. -/
def sampleAddDocs (ds : List Document) : ParentStore :=
  ds.map (fun d => (d.metadata.post_id.getD "k", d))

/-- A post whose title and body are both empty: its rendered content is
exactly the blank sentinel. -/
def blankPost : RawPost :=
  { id := none, title := some "", body := some "", url := none
    score := none, num_comments := none, created_utc := none }

/-- A post whose title is a single space and whose body is empty: title and
body are both blank after trimming. -/
def whitespaceTitlePost : RawPost :=
  { id := none, title := some " ", body := some "", url := none
    score := none, num_comments := none, created_utc := none }

/-- A concrete injective uuid supply used by witnesses. -/
def uuidSupply : Nat → String := fun n => String.mk (List.replicate n 'a')

/-- The module state after one successful indexing run from the initial state. -/
def readyRagState : RagState :=
  (index_data_with_langchain [samplePost] .ok (fun n => toString n) sampleAddDocs
    initialRagState).snd

/-! ### One sequential execution: runs of the indexer composed in order -/

/-- One indexing run, as a step relation between module states. -/
inductive IndexStep (uuid4 : Nat → String) : RagState → RagState → Prop where
  | step (records : List RawPost) (backend : BackendBehavior)
      (addDocs : List Document → ParentStore) (s : RagState) :
      IndexStep uuid4 s (index_data_with_langchain records backend uuid4 addDocs s).snd

/-- States reachable by zero or more further indexing runs. -/
def IndexReachable (uuid4 : Nat → String) : RagState → RagState → Prop :=
  Relation.ReflTransGen (IndexStep uuid4)

/-! ## Theorems -/

/-! ### The retrieval tool: claims C4, C5, C6, C10 -/

/-- Claim C4 (amended): with no active retriever the tool returns the error
record whose message is the full string of rag_handler.py line 187,
"Retriever not ready (indexing likely failed or hasn't run).",
with status "error" and empty context. -/
theorem retrieve_without_retriever_errors (query : String) (s : RagState)
    (invoke : InvokeOutcome) (h : s.lc_retriever = none) :
    retrieve_context_parent_retriever_tool query s invoke =
      { status := "error"
        message := "Retriever not ready (indexing likely failed or hasn't run)."
        context := "" } := by
  simp [retrieve_context_parent_retriever_tool, h]

/-- Witness for `retrieve_without_retriever_errors` at a concrete input. -/
theorem retrieve_without_retriever_errors_witness :
    retrieve_context_parent_retriever_tool "any query" initialRagState (.docs []) =
      { status := "error"
        message := "Retriever not ready (indexing likely failed or hasn't run)."
        context := "" } :=
  retrieve_without_retriever_errors "any query" initialRagState (.docs []) rfl

/-- Claim C4, counterexample to the stated message: with no active retriever
the returned message is not the literal "retriever not ready"; it is the
longer string of line 187.  Status and context are as claimed. -/
theorem retrieve_not_ready_message_counterexample :
    (retrieve_context_parent_retriever_tool "q" initialRagState (.docs [])).status = "error" ∧
    (retrieve_context_parent_retriever_tool "q" initialRagState (.docs [])).context = "" ∧
    (retrieve_context_parent_retriever_tool "q" initialRagState (.docs [])).message ≠
      "retriever not ready" ∧
    (retrieve_context_parent_retriever_tool "q" initialRagState (.docs [])).message =
      "Retriever not ready (indexing likely failed or hasn't run)." := by
  refine ⟨rfl, rfl, ?_, rfl⟩
  decide

/-- Claim C5 (amended): with an active retriever and an `invoke` returning no
documents, the tool returns status "success" with the message of
rag_handler.py line 196, "No relevant context found.", and empty context —
a valid nothing-found outcome distinct from the error status. -/
theorem retrieve_empty_docs_success (query : String) (s : RagState)
    (h : s.lc_retriever.isSome = true) :
    retrieve_context_parent_retriever_tool query s (.docs []) =
      { status := "success", message := "No relevant context found.", context := "" } := by
  cases hs : s.lc_retriever with
  | none => rw [hs] at h; cases h
  | some r => simp [retrieve_context_parent_retriever_tool, hs]

/-- Witness for `retrieve_empty_docs_success` at a concrete input. -/
theorem retrieve_empty_docs_success_witness :
    retrieve_context_parent_retriever_tool "unmatched query" readyRagState (.docs []) =
      { status := "success", message := "No relevant context found.", context := "" } :=
  retrieve_empty_docs_success "unmatched query" readyRagState (by decide)

/-- Claim C5, counterexample to the stated message: in the nothing-found case
the returned message is not the literal "no relevant context"; it is
"No relevant context found." (rag_handler.py line 196).  Status and context
are as claimed. -/
theorem retrieve_no_context_message_counterexample :
    (retrieve_context_parent_retriever_tool "q" readyRagState (.docs [])).status = "success" ∧
    (retrieve_context_parent_retriever_tool "q" readyRagState (.docs [])).context = "" ∧
    (retrieve_context_parent_retriever_tool "q" readyRagState (.docs [])).message ≠
      "no relevant context" ∧
    (retrieve_context_parent_retriever_tool "q" readyRagState (.docs [])).message =
      "No relevant context found." := by
  refine ⟨by decide, by decide, by decide, by decide⟩

/-- Claim C6: the tool is a total function into `{status, message, context}`
records (it never raises past its boundary: every behaviour of the underlying
retriever, including an exception, is mapped to a returned record); the status
is always "success" or "error"; an exception during retrieval yields status
"error", and, when a retriever was active so that retrieval was actually
attempted, the descriptive message "An error occurred during retrieval: "
followed by the exception text. -/
theorem retrieve_never_raises (query e : String) (s : RagState) (invoke : InvokeOutcome) :
    ((retrieve_context_parent_retriever_tool query s invoke).status = "success" ∨
      (retrieve_context_parent_retriever_tool query s invoke).status = "error") ∧
    (retrieve_context_parent_retriever_tool query s (.raises e)).status = "error" ∧
    (s.lc_retriever.isSome = true →
      retrieve_context_parent_retriever_tool query s (.raises e) =
        { status := "error"
          message := "An error occurred during retrieval: " ++ e
          context := "" }) := by
  refine ⟨?_, ?_, ?_⟩
  · cases hs : s.lc_retriever with
    | none => simp [retrieve_context_parent_retriever_tool, hs]
    | some r =>
      cases invoke with
      | raises m => simp [retrieve_context_parent_retriever_tool, hs]
      | docs l =>
        cases l with
        | nil => simp [retrieve_context_parent_retriever_tool, hs]
        | cons d t => simp [retrieve_context_parent_retriever_tool, hs]
  · cases hs : s.lc_retriever with
    | none => simp [retrieve_context_parent_retriever_tool, hs]
    | some r => simp [retrieve_context_parent_retriever_tool, hs]
  · intro h
    cases hs : s.lc_retriever with
    | none => rw [hs] at h; cases h
    | some r => simp [retrieve_context_parent_retriever_tool, hs]

/-- Witness for `retrieve_never_raises` at a concrete input. -/
theorem retrieve_never_raises_witness :
    ((retrieve_context_parent_retriever_tool "q" readyRagState (.raises "disk gone")).status = "success" ∨
      (retrieve_context_parent_retriever_tool "q" readyRagState (.raises "disk gone")).status = "error") ∧
    (retrieve_context_parent_retriever_tool "q" readyRagState (.raises "disk gone")).status = "error" ∧
    (readyRagState.lc_retriever.isSome = true →
      retrieve_context_parent_retriever_tool "q" readyRagState (.raises "disk gone") =
        { status := "error"
          message := "An error occurred during retrieval: " ++ "disk gone"
          context := "" }) :=
  retrieve_never_raises "q" "disk gone" readyRagState (.raises "disk gone")

/-- Claim C10: every value returned by the tool is a `RetrieveResult` record —
by construction a record with exactly the fields `status`, `message` and
`context` — whose status is either "success" or "error", and whenever the
status is "error" the context is the empty string (so non-empty context
implies success). -/
theorem retrieve_result_shape_invariant (query : String) (s : RagState)
    (invoke : InvokeOutcome) :
    ((retrieve_context_parent_retriever_tool query s invoke).status = "success" ∨
      (retrieve_context_parent_retriever_tool query s invoke).status = "error") ∧
    ((retrieve_context_parent_retriever_tool query s invoke).status = "error" →
      (retrieve_context_parent_retriever_tool query s invoke).context = "") := by
  cases hs : s.lc_retriever with
  | none => simp [retrieve_context_parent_retriever_tool, hs]
  | some r =>
    cases invoke with
    | raises m => simp [retrieve_context_parent_retriever_tool, hs]
    | docs l =>
      cases l with
      | nil => simp [retrieve_context_parent_retriever_tool, hs]
      | cons d t => simp [retrieve_context_parent_retriever_tool, hs]

/-- Witness for `retrieve_result_shape_invariant` at a concrete input. -/
theorem retrieve_result_shape_invariant_witness :
    ((retrieve_context_parent_retriever_tool "q" initialRagState (.raises "x")).status = "success" ∨
      (retrieve_context_parent_retriever_tool "q" initialRagState (.raises "x")).status = "error") ∧
    ((retrieve_context_parent_retriever_tool "q" initialRagState (.raises "x")).status = "error" →
      (retrieve_context_parent_retriever_tool "q" initialRagState (.raises "x")).context = "") :=
  retrieve_result_shape_invariant "q" initialRagState (.raises "x")

/-! ### The chat turn handler: claims C7, C8 -/

theorem lastD_append (a b : List String) (r : String) :
    lastD (a ++ b) r = lastD b (lastD a r) := by
  induction a generalizing r with
  | nil => rfl
  | cons x t ih => simp [lastD, ih]

theorem partStep_eq (content_role final_response : String) (p : Part) :
    partStep content_role final_response p = (partText content_role p).getD final_response := by
  cases hp : p.text with
  | none => simp [partStep, partText, hp]
  | some t =>
    by_cases hc : (t != "" && content_role == "model") = true
    · simp [partStep, partText, hp, hc]
    · simp [partStep, partText, hp, hc]

theorem foldl_partStep (content_role : String) (ps : List Part) (r : String) :
    ps.foldl (partStep content_role) r = lastD (ps.filterMap (partText content_role)) r := by
  induction ps generalizing r with
  | nil => rfl
  | cons p t ih =>
    rw [List.foldl_cons, ih, partStep_eq]
    cases hp : partText content_role p with
    | none => simp [List.filterMap_cons, hp]
    | some a => simp [List.filterMap_cons, hp, lastD]

theorem eventStep_eq (r : String) (e : Event) : eventStep r e = lastD (eventTexts e) r := by
  cases hc : e.content with
  | none => simp [eventStep, eventTexts, hc, lastD]
  | some c =>
    cases hp : c.parts with
    | none => simp [eventStep, eventTexts, hc, hp, lastD]
    | some ps => simp [eventStep, eventTexts, hc, hp, foldl_partStep]

theorem foldl_eventStep (l : List Event) (r : String) :
    l.foldl eventStep r = lastD (modelTexts l) r := by
  induction l generalizing r with
  | nil => rfl
  | cons e t ih =>
    rw [List.foldl_cons, ih, eventStep_eq]
    rw [show modelTexts (e :: t) = eventTexts e ++ modelTexts t from rfl, lastD_append]

/-- Claim C7: for every session id, user query and event stream, the turn
handler returns the reply described by the spec — the text of the last
event with a model-role, non-empty text part (an event's text being its last
such part), and the fixed fallback string "Agent did not provide a response."
when no such event arrives.  `lastModelReply` is the spec-side description. -/
theorem runTurn_returns_last_model_text (session_id user_query : String) (l : List Event) :
    handle_adk_chat_turn true session_id user_query (.events l) = lastModelReply l := by
  show l.foldl eventStep "Agent did not provide a response." = _
  rw [foldl_eventStep]; rfl

theorem pyIn_session_not_found (sid : String) :
    pyIn "Session not found" ("Session not found: " ++ sid) = true := by
  unfold pyIn
  rw [decide_eq_true_eq, String.data_append]
  refine ⟨[], ": ".data ++ sid.data, ?_⟩
  simp

theorem processing_error_ne_internal (m : String) :
    "A processing error occurred: " ++ m ≠ "Internal Error: Could not find chat session." := by
  intro h
  have hd := congrArg String.data h
  rw [String.data_append] at hd
  have h2 := congrArg List.head? hd
  simp at h2

theorem an_error_ne_internal (m : String) :
    "An error occurred: " ++ m ≠ "Internal Error: Could not find chat session." := by
  intro h
  have hd := congrArg String.data h
  rw [String.data_append] at hd
  have h2 := congrArg List.head? hd
  simp at h2

/-- Claim C8: a session id not registered in the runner's session store takes
the distinct session-not-found path of adk_chatbot.py lines 129-136 and
returns "Internal Error: Could not find chat session.", which neither the
generic ValueError path ("A processing error occurred: ...") nor the generic
exception path ("An error occurred: ...") can produce.  All exception
outcomes are mapped to returned strings: `handle_adk_chat_turn` is total. -/
theorem runTurn_session_not_found_distinct (sessionStore : List String)
    (session_id user_query : String) (stream : List Event)
    (h : session_id ∉ sessionStore) :
    handle_adk_chat_turn true session_id user_query
        (run_async sessionStore session_id stream) =
      "Internal Error: Could not find chat session." ∧
    (∀ m, pyIn "Session not found" m = false →
      handle_adk_chat_turn true session_id user_query (.valueError m) ≠
        "Internal Error: Could not find chat session.") ∧
    (∀ m, handle_adk_chat_turn true session_id user_query (.otherError m) ≠
      "Internal Error: Could not find chat session.") := by
  refine ⟨?_, ?_, ?_⟩
  · rw [run_async, if_neg h]
    simp [handle_adk_chat_turn, pyIn_session_not_found]
  · intro m hm
    simp [handle_adk_chat_turn, hm]
    exact processing_error_ne_internal m
  · intro m
    simp [handle_adk_chat_turn]
    exact an_error_ne_internal m

/-- Witness for `runTurn_session_not_found_distinct` at a concrete input. -/
theorem runTurn_session_not_found_distinct_witness :
    handle_adk_chat_turn true "sess-1" "hi" (run_async [] "sess-1" []) =
      "Internal Error: Could not find chat session." ∧
    (∀ m, pyIn "Session not found" m = false →
      handle_adk_chat_turn true "sess-1" "hi" (.valueError m) ≠
        "Internal Error: Could not find chat session.") ∧
    (∀ m, handle_adk_chat_turn true "sess-1" "hi" (.otherError m) ≠
      "Internal Error: Could not find chat session.") :=
  runTurn_session_not_found_distinct [] "sess-1" "hi" [] (by simp)

/-! ### The indexer: claims C1, C2, C3 -/

theorem filter_bne_of_not_mem (d : String) (l : List String) (h : d ∉ l) :
    l.filter (fun x => x != d) = l := by
  induction l with
  | nil => rfl
  | cons a t ih =>
    simp only [List.mem_cons, not_or] at h
    have ha : (a != d) = true := bne_iff_ne.mpr (Ne.symm h.1)
    simp [List.filter, ha, ih h.2]

theorem buildDocuments_of_blank (i : Nat) (l : List RawPost)
    (h : ∀ p ∈ l, postContent p = "" ∨ postContent p = blankSentinel) :
    buildDocuments i l = [] := by
  induction l generalizing i with
  | nil => rfl
  | cons p t ih =>
    have hp := h p (List.mem_cons_self p t)
    have hguard : (postContent p == "" || postContent p == blankSentinel) = true := by
      rcases hp with h1 | h1 <;> simp [h1]
    simp only [buildDocuments, hguard, if_true]
    exact ih (i + 1) (fun q hq => h q (List.mem_cons_of_mem p hq))

/-- Claim C1 (amended): for an input list that is empty, or whose every record
renders (via the fixed template and strip) to the empty string or to the
blank sentinel "Title: \nBody:", the indexing run returns failure (`False`) and
the set of chroma directories on disk is unchanged: the directory created for
the run, if any, is removed again (no orphan directories).  The freshness
hypothesis states that the run's uuid-derived directory did not already exist,
which is what `uuid.uuid4()` provides. -/
theorem index_empty_or_blank_sentinel_fails (records : List RawPost)
    (backend : BackendBehavior) (uuid4 : Nat → String)
    (addDocs : List Document → ParentStore) (s : RagState)
    (hfresh : chromaDirName (uuid4 s.uuidCounter) ∉ s.dirs)
    (hblank : records = [] ∨
      ∀ p ∈ records, postContent p = "" ∨ postContent p = blankSentinel) :
    (index_data_with_langchain records backend uuid4 addDocs s).fst = false ∧
    (index_data_with_langchain records backend uuid4 addDocs s).snd.dirs = s.dirs := by
  rcases hblank with hemp | hall
  · subst hemp; exact ⟨rfl, rfl⟩
  · cases records with
    | nil => exact ⟨rfl, rfl⟩
    | cons p t =>
      have hdocs : buildDocuments 0 (p :: t) = [] := buildDocuments_of_blank 0 _ hall
      constructor
      · simp [index_data_with_langchain, hdocs]
      · simp [index_data_with_langchain, hdocs, List.filter_cons, bne_self_eq_false]
        exact fun a ha hc => hfresh (hc ▸ ha)

/-- Witness for `index_empty_or_blank_sentinel_fails` at a concrete input:
a single all-blank post.  The run creates and removes its directory. -/
theorem index_empty_or_blank_sentinel_fails_witness :
    (index_data_with_langchain [blankPost] .ok uuidSupply sampleAddDocs
      initialRagState).fst = false ∧
    (index_data_with_langchain [blankPost] .ok uuidSupply sampleAddDocs
      initialRagState).snd.dirs = initialRagState.dirs :=
  index_empty_or_blank_sentinel_fails [blankPost] .ok uuidSupply sampleAddDocs
    initialRagState (by decide) (Or.inr (by decide))

/-- Claim C1, counterexample to the stated trimming condition: for the input
list `[whitespaceTitlePost]`, whose only record has title " " and body "" —
both blank after trimming — the indexing run SUCCEEDS (returns `True` and
installs a generation), because the guard of rag_handler.py line 69 compares
the rendered content against the exact sentinel "Title: \nBody:" and the
rendered content here is "Title:  \nBody:" (two spaces). -/
theorem index_blank_after_trim_counterexample :
    pyStrip (whitespaceTitlePost.title.getD "") = "" ∧
    pyStrip (whitespaceTitlePost.body.getD "") = "" ∧
    (index_data_with_langchain [whitespaceTitlePost] .ok uuidSupply sampleAddDocs
      initialRagState).fst = true ∧
    (index_data_with_langchain [whitespaceTitlePost] .ok uuidSupply sampleAddDocs
      initialRagState).snd.lc_retriever.isSome = true := by
  refine ⟨by decide, by decide, by decide, by decide⟩

/-- Claim C2 (amended): the retriever pointer of the final state is populated
exactly when the run returns success, and every failing run leaves all three
generation pointers (`lc_retriever`, `lc_parent_store`, `lc_vectorstore`)
equal to `None` — they are reset at the start of the run (rag_handler.py
lines 43-46) and never restored, so after a failure no generation is active;
in particular a previously active generation does NOT remain active. -/
theorem index_installs_generation_only_on_success (records : List RawPost)
    (backend : BackendBehavior) (uuid4 : Nat → String)
    (addDocs : List Document → ParentStore) (s : RagState) :
    ((index_data_with_langchain records backend uuid4 addDocs s).snd.lc_retriever.isSome =
      (index_data_with_langchain records backend uuid4 addDocs s).fst) ∧
    ((index_data_with_langchain records backend uuid4 addDocs s).fst = false →
      (index_data_with_langchain records backend uuid4 addDocs s).snd.lc_retriever = none ∧
      (index_data_with_langchain records backend uuid4 addDocs s).snd.lc_parent_store = none ∧
      (index_data_with_langchain records backend uuid4 addDocs s).snd.lc_vectorstore = none) := by
  cases records with
  | nil => exact ⟨rfl, fun _ => ⟨rfl, rfl, rfl⟩⟩
  | cons p t =>
    by_cases hd : ((buildDocuments 0 (p :: t)).isEmpty = true)
    · constructor
      · simp [index_data_with_langchain, hd]
      · intro _; simp [index_data_with_langchain, hd]
    · cases backend with
      | ok =>
        constructor
        · simp [index_data_with_langchain, hd]
        · intro h; exfalso; simp [index_data_with_langchain, hd] at h
      | raises site msg =>
        constructor
        · simp [index_data_with_langchain, hd]
        · intro _; simp [index_data_with_langchain, hd]

/-- Witness for `index_installs_generation_only_on_success` at a concrete
input (a failing run from a previously successful state). -/
theorem index_installs_generation_only_on_success_witness :
    ((index_data_with_langchain [] .ok uuidSupply sampleAddDocs readyRagState).snd.lc_retriever.isSome =
      (index_data_with_langchain [] .ok uuidSupply sampleAddDocs readyRagState).fst) ∧
    ((index_data_with_langchain [] .ok uuidSupply sampleAddDocs readyRagState).fst = false →
      (index_data_with_langchain [] .ok uuidSupply sampleAddDocs readyRagState).snd.lc_retriever = none ∧
      (index_data_with_langchain [] .ok uuidSupply sampleAddDocs readyRagState).snd.lc_parent_store = none ∧
      (index_data_with_langchain [] .ok uuidSupply sampleAddDocs readyRagState).snd.lc_vectorstore = none) :=
  index_installs_generation_only_on_success [] .ok uuidSupply sampleAddDocs readyRagState

/-- Claim C2, counterexample: starting from a state holding an active
generation (one successful run), a failing run (empty input) returns failure
and leaves `lc_retriever = None` — the previously active generation is
neither unchanged nor active afterwards. -/
theorem index_failure_previous_generation_counterexample :
    readyRagState.lc_retriever.isSome = true ∧
    (index_data_with_langchain [] .ok uuidSupply sampleAddDocs readyRagState).fst = false ∧
    (index_data_with_langchain [] .ok uuidSupply sampleAddDocs readyRagState).snd.lc_retriever = none ∧
    (index_data_with_langchain [] .ok uuidSupply sampleAddDocs readyRagState).snd.lc_retriever ≠
      readyRagState.lc_retriever := by
  refine ⟨by decide, rfl, rfl, by decide⟩

theorem index_uuidCounter_le (records : List RawPost) (backend : BackendBehavior)
    (uuid4 : Nat → String) (addDocs : List Document → ParentStore) (s : RagState) :
    s.uuidCounter ≤ (index_data_with_langchain records backend uuid4 addDocs s).snd.uuidCounter := by
  cases records with
  | nil => simp [index_data_with_langchain]
  | cons p t =>
    by_cases hd : ((buildDocuments 0 (p :: t)).isEmpty = true)
    · simp [index_data_with_langchain, hd]
    · cases backend with
      | ok => simp [index_data_with_langchain, hd]
      | raises site msg => simp [index_data_with_langchain, hd]

theorem reachable_uuidCounter_le (uuid4 : Nat → String) (s t : RagState)
    (h : IndexReachable uuid4 s t) : s.uuidCounter ≤ t.uuidCounter := by
  induction h with
  | refl => exact Nat.le_refl _
  | @tail b c hbc hstep ih =>
    cases hstep with
    | step records backend addDocs =>
      exact ih.trans (index_uuidCounter_le records backend uuid4 addDocs b)

theorem index_success_dir (records : List RawPost) (backend : BackendBehavior)
    (uuid4 : Nat → String) (addDocs : List Document → ParentStore) (s : RagState)
    (h : (index_data_with_langchain records backend uuid4 addDocs s).fst = true) :
    (index_data_with_langchain records backend uuid4 addDocs s).snd.current_chroma_persist_dir =
      some (chromaDirName (uuid4 s.uuidCounter)) ∧
    (index_data_with_langchain records backend uuid4 addDocs s).snd.uuidCounter =
      s.uuidCounter + 1 := by
  cases records with
  | nil => exact absurd h (by simp [index_data_with_langchain])
  | cons p t =>
    by_cases hd : ((buildDocuments 0 (p :: t)).isEmpty = true)
    · exfalso; simp [index_data_with_langchain, hd] at h
    · cases backend with
      | raises site msg => exfalso; simp [index_data_with_langchain, hd] at h
      | ok =>
        exact ⟨by simp [index_data_with_langchain, hd], by simp [index_data_with_langchain, hd]⟩

/-- Claim C3: in one sequential execution, any two successful indexing runs
record distinct persistent storage directories: each run draws a fresh uuid
(the supply is injective, which is what `uuid.uuid4()` provides) and derives
its directory from it, so no prior run's location is ever reused.  The second
run starts from any state reachable from the first run's final state by
further runs. -/
theorem index_runs_use_distinct_directories (uuid4 : Nat → String)
    (hinj : Function.Injective uuid4)
    (records1 : List RawPost) (backend1 : BackendBehavior)
    (addDocs1 : List Document → ParentStore)
    (records2 : List RawPost) (backend2 : BackendBehavior)
    (addDocs2 : List Document → ParentStore) (s t : RagState)
    (h1 : (index_data_with_langchain records1 backend1 uuid4 addDocs1 s).fst = true)
    (hreach : IndexReachable uuid4
      (index_data_with_langchain records1 backend1 uuid4 addDocs1 s).snd t)
    (h2 : (index_data_with_langchain records2 backend2 uuid4 addDocs2 t).fst = true) :
    ∃ d1 d2,
      (index_data_with_langchain records1 backend1 uuid4 addDocs1 s).snd.current_chroma_persist_dir = some d1 ∧
      (index_data_with_langchain records2 backend2 uuid4 addDocs2 t).snd.current_chroma_persist_dir = some d2 ∧
      d1 ≠ d2 := by
  obtain ⟨hd1, hc1⟩ := index_success_dir records1 backend1 uuid4 addDocs1 s h1
  obtain ⟨hd2, hc2⟩ := index_success_dir records2 backend2 uuid4 addDocs2 t h2
  refine ⟨_, _, hd1, hd2, ?_⟩
  intro he
  have hcnt : s.uuidCounter + 1 ≤ t.uuidCounter := by
    have hle := reachable_uuidCounter_le uuid4 _ _ hreach
    rw [hc1] at hle
    exact hle
  have huu : uuid4 s.uuidCounter = uuid4 t.uuidCounter := by
    have hdata := congrArg String.data he
    rw [chromaDirName, chromaDirName, String.data_append, String.data_append] at hdata
    exact String.ext (List.append_cancel_left hdata)
  have heq := hinj huu
  omega

/-- Witness for `index_runs_use_distinct_directories`: two consecutive
successful runs from the initial state. -/
theorem index_runs_use_distinct_directories_witness :
    ∃ d1 d2,
      (index_data_with_langchain [samplePost] .ok uuidSupply sampleAddDocs
        initialRagState).snd.current_chroma_persist_dir = some d1 ∧
      (index_data_with_langchain [samplePost] .ok uuidSupply sampleAddDocs
        (index_data_with_langchain [samplePost] .ok uuidSupply sampleAddDocs
          initialRagState).snd).snd.current_chroma_persist_dir = some d2 ∧
      d1 ≠ d2 :=
  index_runs_use_distinct_directories uuidSupply
    (fun a b h => by
      have hl := congrArg (fun s : String => s.data.length) h
      simpa [uuidSupply] using hl)
    [samplePost] .ok sampleAddDocs [samplePost] .ok sampleAddDocs initialRagState
    (index_data_with_langchain [samplePost] .ok uuidSupply sampleAddDocs initialRagState).snd
    (by decide) Relation.ReflTransGen.refl (by decide)

set_option maxRecDepth 100000 in
/-- Claim C9: the fixed agent instruction string carries the reply-formatting
contract: it contains, byte-exactly, the reply prefix "Based on the retrieved
context: ", the fixed empty-context reply "I couldn\x27t find specific
information about that in the indexed Reddit posts.", and the two instruction
rules mandating them (steps 3 and 4 of the instruction). -/
theorem rag_agent_instruction_formatting_contract :
    (∃ p q, rag_agent_instruction = p ++ "Based on the retrieved context: " ++ q) ∧
    (∃ p q, rag_agent_instruction = p ++ "I couldn\x27t find specific information about that in the indexed Reddit posts." ++ q) ∧
    (∃ p q, rag_agent_instruction = p ++ "Start your response with: \"Based on the retrieved context: \"." ++ q) ∧
    (∃ p q, rag_agent_instruction = p ++ "If the tool was called and returned no relevant context, respond *exactly* with: \"I couldn\x27t find specific information about that in the indexed Reddit posts.\"" ++ q) :=
  ⟨
    ⟨"You are a helpful chatbot answering questions about specific Reddit posts. Your task is to answer user questions based *only* on the context provided by the \x27retrieve_context_parent_retriever_tool\x27 function. Follow these steps precisely:\n1.  When you receive a user query, analyze if you need external information from the Reddit posts. If yes, call the \x27retrieve_context_parent_retriever_tool\x27 function with the user query to find relevant information. If the question is conversational (e.g. \"hello\", \"how are you?\") or clearly follows up on previous context/answers, you might not need the tool. Use the tool if the user asks about specific topics, posts, or summaries related to the Reddit data.\n2.  Examine the result from the tool if called. The \x27context\x27 field contains relevant information chunks.\n3.  If the tool was called and returned context (status \x27success\x27, context not empty), synthesize an answer based *solely* on that retrieved context AND the conversation history. Start your response with: \"",
      "\".\n4.  If the tool was called and returned no relevant context, respond *exactly* with: \"I couldn\x27t find specific information about that in the indexed Reddit posts.\"\n5.  If the tool was not called (e.g., for a conversational query or direct follow-up), answer naturally based on the conversation history.\n6.  Do not use your general knowledge for questions that seem to ask about the Reddit data\n7. Use General Knowledge to answer questions that are not related to the Reddit data.\n\n", rfl⟩,
    ⟨"You are a helpful chatbot answering questions about specific Reddit posts. Your task is to answer user questions based *only* on the context provided by the \x27retrieve_context_parent_retriever_tool\x27 function. Follow these steps precisely:\n1.  When you receive a user query, analyze if you need external information from the Reddit posts. If yes, call the \x27retrieve_context_parent_retriever_tool\x27 function with the user query to find relevant information. If the question is conversational (e.g. \"hello\", \"how are you?\") or clearly follows up on previous context/answers, you might not need the tool. Use the tool if the user asks about specific topics, posts, or summaries related to the Reddit data.\n2.  Examine the result from the tool if called. The \x27context\x27 field contains relevant information chunks.\n3.  If the tool was called and returned context (status \x27success\x27, context not empty), synthesize an answer based *solely* on that retrieved context AND the conversation history. Start your response with: \"Based on the retrieved context: \".\n4.  If the tool was called and returned no relevant context, respond *exactly* with: \"",
      "\"\n5.  If the tool was not called (e.g., for a conversational query or direct follow-up), answer naturally based on the conversation history.\n6.  Do not use your general knowledge for questions that seem to ask about the Reddit data\n7. Use General Knowledge to answer questions that are not related to the Reddit data.\n\n", rfl⟩,
    ⟨"You are a helpful chatbot answering questions about specific Reddit posts. Your task is to answer user questions based *only* on the context provided by the \x27retrieve_context_parent_retriever_tool\x27 function. Follow these steps precisely:\n1.  When you receive a user query, analyze if you need external information from the Reddit posts. If yes, call the \x27retrieve_context_parent_retriever_tool\x27 function with the user query to find relevant information. If the question is conversational (e.g. \"hello\", \"how are you?\") or clearly follows up on previous context/answers, you might not need the tool. Use the tool if the user asks about specific topics, posts, or summaries related to the Reddit data.\n2.  Examine the result from the tool if called. The \x27context\x27 field contains relevant information chunks.\n3.  If the tool was called and returned context (status \x27success\x27, context not empty), synthesize an answer based *solely* on that retrieved context AND the conversation history. ",
      "\n4.  If the tool was called and returned no relevant context, respond *exactly* with: \"I couldn\x27t find specific information about that in the indexed Reddit posts.\"\n5.  If the tool was not called (e.g., for a conversational query or direct follow-up), answer naturally based on the conversation history.\n6.  Do not use your general knowledge for questions that seem to ask about the Reddit data\n7. Use General Knowledge to answer questions that are not related to the Reddit data.\n\n", rfl⟩,
    ⟨"You are a helpful chatbot answering questions about specific Reddit posts. Your task is to answer user questions based *only* on the context provided by the \x27retrieve_context_parent_retriever_tool\x27 function. Follow these steps precisely:\n1.  When you receive a user query, analyze if you need external information from the Reddit posts. If yes, call the \x27retrieve_context_parent_retriever_tool\x27 function with the user query to find relevant information. If the question is conversational (e.g. \"hello\", \"how are you?\") or clearly follows up on previous context/answers, you might not need the tool. Use the tool if the user asks about specific topics, posts, or summaries related to the Reddit data.\n2.  Examine the result from the tool if called. The \x27context\x27 field contains relevant information chunks.\n3.  If the tool was called and returned context (status \x27success\x27, context not empty), synthesize an answer based *solely* on that retrieved context AND the conversation history. Start your response with: \"Based on the retrieved context: \".\n4.  ",
      "\n5.  If the tool was not called (e.g., for a conversational query or direct follow-up), answer naturally based on the conversation history.\n6.  Do not use your general knowledge for questions that seem to ask about the Reddit data\n7. Use General Knowledge to answer questions that are not related to the Reddit data.\n\n", rfl⟩⟩

end SubRedditAgent
